import Mathlib

/-!
Verification of the Focus-app intent-resolution pipeline.

This file gives a shallow embedding, in Lean 4, of the 4-layer intent
authority pipeline of `src/intent_authority.py` (the second, authoritative
`IntentDetectionLayer` / `IntentAuthorityLayer` / `ActionExecutionLayer`
definitions, lines 255-1043, which shadow the earlier legacy classes in the
same module), together with the task-persistence logic of
`src/tempCodeRunnerFile.py` (`create_task`, `add_task_logic`) and the time
normalizer `RoutineNormalizer._format_time` of `src/ai_parser.py`.

Modelling conventions:
 * Python strings are Lean `String`s; all computation is done on the
   underlying `List Char` with structural recursion so that every
   definition evaluates inside the kernel.  Inputs are assumed ASCII for
   the purposes of `str.lower` and the `\w`/`\s` regex character classes
   (the Python code only ever feeds it chat text and its own ASCII
   literals).
 * Confidence values are exact decimals in the source (1.0, 0.95, 0.85,
   0.75, 0.7, 0.6, 0.5, 0.4, and the score boosts 0.2, 0.05 - all
   multiples of 0.01).  They are modelled as natural numbers counting
   hundredths: 0.85 becomes 85.  Comparisons and sums in the source map
   to the corresponding `Nat` comparisons and sums.
 * The advisory AI layer (`AIIntentSuggestionLayer.suggest`) performs a
   network call; its result is modelled as an `Option IntentCandidate`
   parameter of `process` (the Resolver must tolerate `none`).
 * Reads of external state by query handling (`_handle_query` formats the
   persisted XP/schedule data) are modelled by a `QueryEnv` record of the
   collaborator-produced message strings; `uuid.uuid4()` and `today()`
   inside the task factory are modelled by an `ExecEnv` record.
 * The process-wide `PENDING_INTENTS` dict is modelled as an association
   list passed in and returned by `process` (state passing).
 * `PendingIntent.timestamp` (set to `datetime.now()` and never read by
   any code path) is not modelled.
-/

namespace Focus

/-! ## Python string primitives, modelled over `List Char` -/

/-- Python `\s` / `str.strip` whitespace class: space, tab, LF, CR, VT, FF. -/
def pySpace (c : Char) : Bool :=
  c = ' ' || c = '\t' || c = '\n' || c = '\r' || c = '\x0b' || c = '\x0c'

/-- ASCII lowercasing of one character (Python `str.lower` on ASCII input). -/
def lowerChar (c : Char) : Char :=
  if 'A' ≤ c && c ≤ 'Z' then Char.ofNat (c.toNat + 32) else c

/-- Python `str.lower()` (ASCII). -/
def pyLower (s : String) : String := String.mk (s.data.map lowerChar)

/-- Strip `pySpace` characters from both ends of a character list. -/
def stripL (l : List Char) : List Char :=
  ((l.dropWhile pySpace).reverse.dropWhile pySpace).reverse

/-- Python `str.strip()`. -/
def pyStrip (s : String) : String := String.mk (stripL s.data)

/-- Substring containment on character lists: does `p` occur inside `t`?
`containsL t p` models Python `p in t`. -/
def containsL : List Char → List Char → Bool
  | [], p => p.isEmpty
  | c :: rest, p => p.isPrefixOf (c :: rest) || containsL rest p

/-- Python `pat in t` for strings. -/
def pyContains (t pat : String) : Bool := containsL t.data pat.data

/-- Does `t` start with the word `w` followed by one `\s` character?
Models an anchored regex `^w\s` (as used by the question patterns). -/
def startsWordThenWs (t w : String) : Bool :=
  w.data.isPrefixOf t.data &&
    (match t.data.drop w.data.length with
     | c :: _ => pySpace c
     | [] => false)

/-- Split a character list into the runs of characters satisfying `p`,
keeping empty runs between consecutive separators (auxiliary). -/
def splitRuns (p : Char → Bool) : List Char → List (List Char)
  | [] => [[]]
  | c :: rest =>
    match splitRuns p rest with
    | h :: t => if p c then (c :: h) :: t else [] :: h :: t
    | [] => [[]]

/-- The maximal nonempty runs of characters satisfying `p`. -/
def tokensBy (p : Char → Bool) (l : List Char) : List (List Char) :=
  (splitRuns p l).filter (fun r => !r.isEmpty)

/-- Python `\w` (regex word character), ASCII: letters, digits, underscore. -/
def wordChar (c : Char) : Bool := c.isAlphanum || c = '_'

/-- `re.findall(r"\b\w+\b", s)`: the maximal word-character runs of `s`. -/
def wordTokens (s : String) : List String :=
  (tokensBy wordChar s.data).map String.mk

/-- Python `str.split()` (split on whitespace runs, dropping empties). -/
def pySplitWs (s : String) : List String :=
  (tokensBy (fun c => !pySpace c) s.data).map String.mk

/-- Python `str.split(sep)` for a single-character separator, keeping
empty pieces (so `"a::b".split(":") = ["a","","b"]`). -/
def splitOnChar (sep : Char) : List Char → List (List Char)
  | [] => [[]]
  | c :: rest =>
    match splitOnChar sep rest with
    | h :: t => if c = sep then [] :: h :: t else (c :: h) :: t
    | [] => [[]]

/-- Numeric value of a list of decimal digit characters (Python `int` on a
digit-only string; callers guarantee the digits). -/
def digitsToNat (l : List Char) : Nat :=
  l.foldl (fun n c => 10 * n + (c.toNat - 48)) 0

/-- The decimal digit character for `n < 10`. -/
def digitChar : Nat → Char
  | 0 => '0' | 1 => '1' | 2 => '2' | 3 => '3' | 4 => '4'
  | 5 => '5' | 6 => '6' | 7 => '7' | 8 => '8' | _ => '9'

/-- Decimal digits of `n` (fuel-driven so the kernel can evaluate it). -/
def natDigitsAux : Nat → Nat → List Char
  | 0, _ => []
  | fuel + 1, n =>
    if n < 10 then [digitChar n]
    else natDigitsAux fuel (n / 10) ++ [digitChar (n % 10)]

/-- Decimal rendering of a natural number (Python `str(n)` / `f"{n}"`). -/
def natToStr (n : Nat) : String := String.mk (natDigitsAux (n + 1) n)

/-- Python `f"{n:02}"`: decimal rendering zero-padded to width two. -/
def padTwo (n : Nat) : String :=
  if n < 10 then "0" ++ natToStr n else natToStr n

/-- Python `sep.join(parts)`. -/
def joinWith (sep : String) : List String → String
  | [] => ""
  | [s] => s
  | s :: rest => s ++ sep ++ joinWith sep rest

/-- Deduplicate keeping first occurrences.  The source computes
`list(set(found_days))`, whose ordering is a Python implementation detail;
this model fixes the deterministic first-occurrence order (the membership,
which is what the logic consumes, is identical). -/
def dedupFirst (l : List String) : List String :=
  l.foldl (fun acc x => if acc.contains x then acc else acc ++ [x]) []

/-! ## Data model (`IntentType`, `IntentCandidate`, `PendingIntent`) -/

/-- `IntentType` enum of `intent_authority.py`. -/
inductive IntentType
  | QUERY
  | TASK
  | CLASS
  | CHAT
  | SCHEDULE_FILE
deriving DecidableEq

/-- The `extracted_fields` dictionary of an `IntentCandidate`.  The pipeline
only ever reads the keys `action`, `title`, `days`, `start`, `end`, `date`
(and `classes` for schedule files, which no claim touches); `none` models
an absent key. -/
structure Fields where
  action : Option String := none
  title : Option String := none
  days : Option (List String) := none
  start : Option String := none
  end_ : Option String := none
  date : Option String := none
deriving DecidableEq

/-- `IntentCandidate` dataclass; `confidence` in hundredths (0.7 ↦ 70). -/
structure IntentCandidate where
  intent_type : IntentType
  confidence : Nat
  extracted_fields : Fields := {}
  source : String := "unknown"
  reason : String := ""
  needs_clarification : Bool := false
  clarification_question : String := ""
  options : List String := []
deriving DecidableEq

/-- `PendingIntent` dataclass (the wall-clock `timestamp`, never read by the
code, is not modelled). -/
structure PendingIntent where
  original_text : String
  candidates : List IntentCandidate
  clarification_asked : String
  options : List String
deriving DecidableEq

/-- The process-wide `PENDING_INTENTS : session_id -> PendingIntent` dict,
as an association list. -/
abbrev PendingTable := List (String × PendingIntent)

/-- Dict lookup `PENDING_INTENTS.get(session_id)`. -/
def lookupP (t : PendingTable) (sid : String) : Option PendingIntent :=
  match t.find? (fun e => e.1 = sid) with
  | some e => some e.2
  | none => none

/-- `del PENDING_INTENTS[session_id]`. -/
def eraseP (t : PendingTable) (sid : String) : PendingTable :=
  t.filter (fun e => ¬ (e.1 = sid))

/-- `PENDING_INTENTS[session_id] = p`. -/
def insertP (t : PendingTable) (sid : String) (p : PendingIntent) : PendingTable :=
  eraseP t sid ++ [(sid, p)]

/-- The `{"action": ...}` result dicts of `IntentAuthorityLayer.process`
(the spec's `ResolutionOutcome`).  `execute` carries `needs_confirmation`
and, on the clarification-resolution path only, a `clarification_response`
string. -/
inductive Outcome
  | execute (intent : IntentCandidate) (needs_confirmation : Bool)
      (clarification_response : Option String)
  | clarify (question : String) (options : List String)
  | respond (message : String)
deriving DecidableEq

/-! ## Layer 1: `IntentDetectionLayer` -/

/-- The anchored word alternatives of `QUERY_PATTERNS[0]`. -/
def QUESTION_WORDS : List String :=
  ["what", "when", "how", "why", "where", "whose", "which", "who"]

/-- The anchored word alternatives of `QUERY_PATTERNS[1]`. -/
def IMPERATIVE_WORDS : List String := ["show", "tell", "list", "get"]

/-- The anchored word alternatives of `QUERY_PATTERNS[3]`. -/
def AUXILIARY_WORDS : List String := ["is", "are", "can", "could", "would"]

/-- `IntentDetectionLayer._is_question`: `re.search` of the four
`QUERY_PATTERNS` against the (lowered, stripped) text: one of the starter
words at position 0 followed by whitespace, or a trailing `?`. -/
def is_question (t : String) : Bool :=
  QUESTION_WORDS.any (startsWordThenWs t) ||
  IMPERATIVE_WORDS.any (startsWordThenWs t) ||
  t.data.getLast? = some '?' ||
  AUXILIARY_WORDS.any (startsWordThenWs t)

/-- `QUERY_KEYWORDS`, in the source's (insertion-ordered dict) order. -/
def QUERY_KEYWORDS : List (String × String) :=
  [("xp", "xp"), ("level", "xp"), ("exp", "xp"), ("progress", "stats"),
   ("next class", "next_class"), ("next class is", "next_class"),
   ("class today", "today_tasks"), ("schedule", "today_tasks"),
   ("what do i have", "today_tasks"), ("what's today", "today_tasks"),
   ("tasks today", "today_tasks"), ("week", "weekly_classes"),
   ("weekly", "weekly_classes"), ("this week", "weekly_classes"),
   ("classes this week", "weekly_classes"), ("stat", "stats"),
   ("stats", "stats"), ("performance", "stats"), ("productivity", "tips"),
   ("tip", "tips"), ("advice", "tips"), ("suggestion", "tips")]

/-- `IntentDetectionLayer._map_query_to_action`: first keyword contained in
the text wins; fallback `"general"`. -/
def map_query_to_action (t : String) : String :=
  match QUERY_KEYWORDS.find? (fun kv => pyContains t kv.1) with
  | some kv => kv.2
  | none => "general"

/-- The day-name alternatives of `DAYS_PATTERN`. -/
def DAY_WORDS : List String :=
  ["mon", "tue", "wed", "thu", "fri", "sat", "sun", "monday", "tuesday",
   "wednesday", "thursday", "friday", "saturday", "sunday"]

/-- `re.search(DAYS_PATTERN, t)`: some day name occurs delimited by `\b`
word boundaries, i.e. as a maximal word-character run of `t`. -/
def hasDayToken (t : String) : Bool :=
  (wordTokens t).any (fun w => DAY_WORDS.contains w)

/-- One alternative of `\d{1,2}`: the greedy-first list of (digits taken,
rest) splits at the head of `l`. -/
def hourAlts : List Char → List (List Char × List Char)
  | c1 :: c2 :: rest =>
    if c1.isDigit && c2.isDigit then [([c1, c2], rest), ([c1], c2 :: rest)]
    else if c1.isDigit then [([c1], c2 :: rest)] else []
  | [c1] => if c1.isDigit then [([c1], [])] else []
  | [] => []

/-- The optional `(?::\d{2})?` suffix: greedily with the colon group, then
without (`num` is the text matched so far). -/
def minuteAlts (num : List Char) (l : List Char) : List (List Char × List Char) :=
  match l with
  | ':' :: m1 :: m2 :: rest =>
    if m1.isDigit && m2.isDigit then [(num ++ [':', m1, m2], rest), (num, l)]
    else [(num, l)]
  | _ => [(num, l)]

/-- All backtracking alternatives of `\d{1,2}(?::\d{2})?` at the head of
`l`, in Python's greedy matching order. -/
def timeAlts (l : List Char) : List (List Char × List Char) :=
  (hourAlts l).flatMap (fun p => minuteAlts p.1 p.2)

/-- `\s*-\s*`: skip whitespace, require a dash, skip whitespace. -/
def dashSep (l : List Char) : Option (List Char) :=
  match l.dropWhile pySpace with
  | '-' :: rest => some (rest.dropWhile pySpace)
  | _ => none

/-- Match `TIME_PATTERN` anchored at the head of `l`, returning the two
captured groups of the first (greedy, backtracking) match. -/
def matchTimeAt (l : List Char) : Option (String × String) :=
  (timeAlts l).findSome? (fun p =>
    match dashSep p.2 with
    | none => none
    | some l2 =>
      match timeAlts l2 with
      | q :: _ => some (String.mk p.1, String.mk q.1)
      | [] => none)

/-- `re.search(TIME_PATTERN, ...)`: leftmost match wins. -/
def searchTime : List Char → Option (String × String)
  | [] => none
  | c :: rest =>
    match matchTimeAt (c :: rest) with
    | some r => some r
    | none => searchTime rest

/-- The `days_map` of `_extract_structural_fields`. -/
def DAYS_MAP : List (String × String) :=
  [("mon", "mon"), ("monday", "mon"), ("tue", "tue"), ("tuesday", "tue"),
   ("wed", "wed"), ("wednesday", "wed"), ("thu", "thu"), ("thursday", "thu"),
   ("fri", "fri"), ("friday", "fri"), ("sat", "sat"), ("saturday", "sat"),
   ("sun", "sun"), ("sunday", "sun")]

/-- The inline time normalization of `_extract_structural_fields`:
`if ":" not in s: s = f"{int(s):02}:00"`. -/
def padHourToken (s : String) : String :=
  if pyContains s ":" then s else padTwo (digitsToNat s.data) ++ ":00"

/-- `IntentDetectionLayer._extract_structural_fields`. -/
def extract_structural_fields (text : String) : Fields :=
  let found_days := (wordTokens (pyLower text)).filterMap
    (fun w => Option.map Prod.snd (DAYS_MAP.find? (fun kv => kv.1 = w)))
  match searchTime text.data with
  | some se =>
    { days := some (dedupFirst found_days),
      start := some (padHourToken se.1), end_ := some (padHourToken se.2) }
  | none =>
    { days := some (dedupFirst found_days), start := none, end_ := none }

/-- The word alternatives of the title-stripping regex
`^(task|add|create|new|please)\s+` of `_extract_title`. -/
def TITLE_STRIP_WORDS : List String := ["task", "add", "create", "new", "please"]

/-- `IntentDetectionLayer._extract_title`: drop one leading imperative word
(case-insensitively) together with the following whitespace run, then strip. -/
def extract_title (text : String) : String :=
  let lower := pyLower text
  match TITLE_STRIP_WORDS.find? (fun w => startsWordThenWs lower w) with
  | some w =>
    pyStrip (String.mk ((text.data.drop w.data.length).dropWhile pySpace))
  | none => pyStrip text

/-- `IntentDetectionLayer.detect`. -/
def detect (text : String) : List IntentCandidate :=
  let text_lower := pyStrip (pyLower text)
  if is_question text_lower then
    [{ intent_type := .QUERY, confidence := 100,
       extracted_fields := { action := some (map_query_to_action text_lower) },
       source := "regex", reason := "Text matches question pattern",
       needs_clarification := false }]
  else
    let has_days := hasDayToken text_lower
    let has_time := (searchTime text_lower.data).isSome
    if has_days && has_time then
      [{ intent_type := .CLASS, confidence := 70,
         extracted_fields := extract_structural_fields text,
         source := "heuristic", reason := "Contains both days and time patterns",
         needs_clarification := false }]
    else if pyContains text_lower "class" || pyContains text_lower "lecture" then
      [{ intent_type := .CLASS, confidence := 50, extracted_fields := {},
         source := "heuristic",
         reason := "Contains 'class' keyword but missing schedule details",
         needs_clarification := true,
         clarification_question := "What days and time is this class?",
         options := ["Mon Wed 10-11", "Tue Thu 14-16", "Daily 9-10"] }]
    else
      [{ intent_type := .TASK, confidence := 60,
         extracted_fields := { title := some (extract_title text) },
         source := "heuristic", reason := "No query or class patterns detected",
         needs_clarification := false },
       { intent_type := .CHAT, confidence := 40, extracted_fields := {},
         source := "heuristic", reason := "Could be casual conversation",
         needs_clarification := false }]

/-! ## Layer 3: `IntentAuthorityLayer` -/

/-- `AUTO_EXECUTE_THRESHOLD = 0.85` (in hundredths). -/
def AUTO_EXECUTE_THRESHOLD : Nat := 85

/-- `CLARIFY_THRESHOLD = 0.60` (in hundredths). -/
def CLARIFY_THRESHOLD : Nat := 60

/-- The scoring function inside `_select_best_candidate`: confidence plus a
0.2 boost for deterministic QUERY detection plus a 0.05 boost for advisory
TASK/CLASS extraction. -/
def candidate_score (c : IntentCandidate) : Nat :=
  c.confidence +
    (if c.intent_type = .QUERY ∧ (c.source = "regex" ∨ c.source = "heuristic")
     then 20 else 0) +
    (if c.source = "ai" ∧ (c.intent_type = .TASK ∨ c.intent_type = .CLASS)
     then 5 else 0)

/-- `IntentAuthorityLayer._select_best_candidate`: Python `max` with key
`candidate_score` keeps the first of equally-scored candidates; on an empty
list the source returns a default CHAT candidate. -/
def select_best_candidate (cs : List IntentCandidate) : IntentCandidate :=
  match cs with
  | [] =>
    { intent_type := .CHAT, confidence := 50, extracted_fields := {},
      source := "default", reason := "No candidates found" }
  | c :: rest =>
    rest.foldl (fun acc x => if candidate_score acc < candidate_score x then x else acc) c

/-- Truthiness of an optional string field (Python `if not start`): absent
(`None`) or empty. -/
def optFalsy (o : Option String) : Bool :=
  match o with
  | none => true
  | some s => s.data.isEmpty

/-- `datetime.strptime(s, "%H:%M")` succeeds: one or two digits giving an
hour below 24, a colon, one or two digits giving a minute below 60. -/
def strptimeHM (s : String) : Bool :=
  match splitOnChar ':' s.data with
  | [h, m] =>
    !h.isEmpty && h.length ≤ 2 && h.all Char.isDigit && digitsToNat h < 24 &&
    !m.isEmpty && m.length ≤ 2 && m.all Char.isDigit && digitsToNat m < 60
  | _ => false

/-- Result of `_validate_candidate`: `{"valid": True}` or
`{"valid": False, "reason": ..., "options": [...]}`. -/
inductive Validation
  | valid
  | invalid (reason : String) (options : List String)
deriving DecidableEq

/-- `IntentAuthorityLayer._validate_candidate`: the hard structural rules
(QUERY always valid; TASK needs a trimmed title of length at least 2; CLASS
needs days, start and end, and both times must parse as `%H:%M`). -/
def validate_candidate (c : IntentCandidate) : Validation :=
  match c.intent_type with
  | .QUERY => .valid
  | .TASK =>
    let title := pyStrip (c.extracted_fields.title.getD "")
    if title.data.length < 2 then
      .invalid "I need a clearer task title. What exactly do you want to add?"
        ["Math homework", "Read chapter 5", "Prepare for exam"]
    else .valid
  | .CLASS =>
    let days := c.extracted_fields.days.getD []
    let start := c.extracted_fields.start
    let end_ := c.extracted_fields.end_
    let missing :=
      (if days.isEmpty then ["days"] else []) ++
      (if optFalsy start then ["start time"] else []) ++
      (if optFalsy end_ then ["end time"] else [])
    if !missing.isEmpty then
      .invalid ("To add a class, I need: " ++ joinWith ", " missing ++
          ". Could you provide these details?")
        ["Mon Wed 10-11", "Tue Thu 14-16", "Daily 9-10"]
    else if strptimeHM (start.getD "") && strptimeHM (end_.getD "") then .valid
    else
      .invalid "Time format looks wrong. Please use HH:MM format (e.g., 10:00 or 14:30)"
        ["10:00-11:00", "14:30-16:00"]
  | _ => .valid

/-- `IntentAuthorityLayer._generate_clarification` (its unused `text`
argument is dropped): candidate-provided question first, then the
contextual TASK/CLASS questions for confidence below 0.75. -/
def generate_clarification (c : IntentCandidate) : Option (String × List String) :=
  if c.needs_clarification then some (c.clarification_question, c.options)
  else if c.confidence < 75 then
    match c.intent_type with
    | .TASK =>
      some ("Would you like me to add this as a task, or was that just a note?",
        ["Add as task", "Just a note", "Help me phrase it"])
    | .CLASS =>
      some ("It looks like you're mentioning a class. Should I add it to your schedule?",
        ["Add to schedule", "Just info", "Ask for details"])
    | _ => none
  else none

/-- `IntentAuthorityLayer._is_clarification_response`: the lowered text
contains one of the first two whitespace-separated words of some stored
option (lowered). -/
def is_clarification_response (text : String) (options : List String) : Bool :=
  let text_lower := pyLower text
  let option_keywords := options.flatMap (fun o => (pySplitWs (pyLower o)).take 2)
  option_keywords.any (fun kw => pyContains text_lower kw)

/-- The affirmative keywords of `_resolve_pending_intent`. -/
def AFFIRM_WORDS : List String := ["add", "yes", "sure", "task"]

/-- The negative keywords of `_resolve_pending_intent`. -/
def NEGATIVE_WORDS : List String := ["no", "not", "cancel", "just"]

/-- The highest-confidence TASK/CLASS candidate of a stored set (Python
`max(task_candidates, key=lambda c: c.confidence)`, first max kept);
`none` when the set has no TASK/CLASS candidate. -/
def bestTaskClass (cs : List IntentCandidate) : Option IntentCandidate :=
  match cs.filter (fun c => decide (c.intent_type = .TASK ∨ c.intent_type = .CLASS)) with
  | [] => none
  | c :: rest =>
    some (rest.foldl (fun acc x => if acc.confidence < x.confidence then x else acc) c)

/-- `IntentAuthorityLayer._resolve_pending_intent`.  An affirmative reply
with a stored TASK/CLASS candidate executes the best one and deletes the
entry; otherwise a negative reply responds and deletes the entry; otherwise
the question is re-asked and the entry is left in place. -/
def resolve_pending_intent (pending : PendingIntent) (response : String)
    (sid : String) (table : PendingTable) : Outcome × PendingTable :=
  let response_lower := pyLower response
  let affirmative := AFFIRM_WORDS.any (fun kw => pyContains response_lower kw)
  match (if affirmative then bestTaskClass pending.candidates else none) with
  | some best => (.execute best true (some response), eraseP table sid)
  | none =>
    if NEGATIVE_WORDS.any (fun kw => pyContains response_lower kw) then
      (.respond "Got it! I'll leave your data as is. Is there anything else I can help with?",
        eraseP table sid)
    else
      (.clarify "I'm not sure what you mean. Could you clarify?"
        ["Yes, add it", "No, cancel", "Just information"], table)

/-- The strings `_handle_query` obtains from the persistence/formatting
collaborators (`get_user_context`, `format_upcoming_classes`,
`format_today_schedule`, `get_weekly_class_tasks`, `format_user_stats`);
modelled as an environment record because they only read external state. -/
structure QueryEnv where
  xpMessage : String
  nextClassMessage : String
  todayMessage : String
  weeklyMessage : String
  statsMessage : String
deriving DecidableEq

/-- The fixed productivity-tips message of `_handle_query`. -/
def tipsMessage : String :=
  "💡 **Productivity Tips:**\n\n1. 🍅 Use Pomodoro Technique (25 min work, 5 min break)\n2. 📝 Break big tasks into smaller subtasks\n3. 🎯 Focus on one task at a time\n4. 📅 Plan your day the night before\n5. 🏃 Take regular breaks to stay fresh"

/-- The fallback message of `_handle_query` for an unrecognized action. -/
def generalQueryMessage : String :=
  "I'm not sure what you're asking. Try asking about:\n• Your XP and level\n• Today's schedule\n• Upcoming classes\n• Weekly routine"

/-- `IntentAuthorityLayer._handle_query`: dispatch on the extracted query
action; every branch returns a Respond outcome and never mutates state. -/
def handle_query (c : IntentCandidate) (env : QueryEnv) : Outcome :=
  let action := c.extracted_fields.action.getD "general"
  if action = "xp" then .respond env.xpMessage
  else if action = "next_class" then .respond env.nextClassMessage
  else if action = "today_tasks" then .respond env.todayMessage
  else if action = "weekly_classes" then .respond env.weeklyMessage
  else if action = "stats" then .respond env.statsMessage
  else if action = "tips" then .respond tipsMessage
  else .respond generalQueryMessage

/-- The generic help message of `_handle_low_confidence` for CHAT. -/
def lowConfidenceChatMessage : String :=
  "I'm not sure what you mean. Try:\n• 'What do I have today?'\n• 'Add math homework'\n• 'Physics class Mon Wed 10-11'\n• 'How much XP do I have?'"

/-- `IntentAuthorityLayer._handle_low_confidence`: CHAT falls back to a help
response, anything else to a generic clarification; no pending state is
written. -/
def handle_low_confidence (c : IntentCandidate) : Outcome :=
  if c.intent_type = .CHAT then .respond lowConfidenceChatMessage
  else
    .clarify "I'm not quite sure what you want. Could you rephrase?"
      ["Add as task", "Add as class", "Just tell me"]

/-- `IntentAuthorityLayer._generate_chat_response`. -/
def chatResponseMessage : String :=
  "I'm here to help! You can ask me about your schedule, add tasks or classes, or check your stats."

/-- The combined candidate list the Resolver builds in `process` (Layer 1
detection output plus the optional advisory suggestion). -/
def resolver_candidates (text : String) (ai : Option IntentCandidate) :
    List IntentCandidate :=
  detect text ++ ai.toList

/-- The winning candidate of a `process` call on fresh input. -/
def resolver_best (text : String) (ai : Option IntentCandidate) : IntentCandidate :=
  select_best_candidate (resolver_candidates text ai)

/-- The fresh-input part of `IntentAuthorityLayer.process` (everything after
the pending-intent check): detect, add the advisory suggestion, select and
validate the best candidate, and apply the confidence bands. -/
def processFresh (text : String) (sid : String) (ai : Option IntentCandidate)
    (env : QueryEnv) (table : PendingTable) : Outcome × PendingTable :=
  let candidates := resolver_candidates text ai
  let best := resolver_best text ai
  match validate_candidate best with
  | .invalid reason opts => (.clarify reason opts, table)
  | .valid =>
    if AUTO_EXECUTE_THRESHOLD ≤ best.confidence then
      if best.intent_type = .QUERY then (handle_query best env, table)
      else if best.intent_type = .TASK ∨ best.intent_type = .CLASS then
        (.execute best (decide (best.confidence < 95)) none, table)
      else (.respond chatResponseMessage, table)
    else if CLARIFY_THRESHOLD ≤ best.confidence then
      match generate_clarification best with
      | some qo =>
        (.clarify qo.1 qo.2,
          insertP table sid
            { original_text := text, candidates := candidates,
              clarification_asked := qo.1, options := qo.2 })
      | none => (handle_low_confidence best, table)
    else (handle_low_confidence best, table)

/-- `IntentAuthorityLayer.process`: the Resolver's sole entry point.  The
advisory suggestion (`ai`) and the collaborator messages (`env`) are
explicit parameters; the pending-intent table is passed and returned. -/
def process (text : String) (sid : String) (ai : Option IntentCandidate)
    (env : QueryEnv) (table : PendingTable) : Outcome × PendingTable :=
  match lookupP table sid with
  | some pending =>
    if is_clarification_response text pending.options then
      resolve_pending_intent pending text sid table
    else
      processFresh text sid ai env (eraseP table sid)
  | none => processFresh text sid ai env table

/-! ## Layer 4 and persistence: `create_task`, `add_task_logic`,
`ActionExecutionLayer._execute_class` (`tempCodeRunnerFile.py`, the complete
`logic` module the pipeline imports) -/

/-- A class `schedule` dict (`{"days": ..., "start": ..., "end": ...}`). -/
structure Schedule where
  days : List String
  start : String
  end_ : String
deriving DecidableEq

/-- A task record as built by `create_task` (`subtasks` and `documents`
start empty and stay empty on this code path). -/
structure TaskRec where
  id : String
  type_ : String
  title : String
  subject : Option String
  schedule : Option Schedule
  date : Option String
  days : Option (List String)
  status : String
  subtasks : List String
  documents : List String
  created_at : String
  updated_at : String
deriving DecidableEq

/-- The persisted state, restricted to what this code path touches: the
`"tasks"` list of `data.json` (XP/level/history are read and written by
collaborators outside the claims). -/
structure Data where
  tasks : List TaskRec
deriving DecidableEq

/-- The ambient values `create_task` draws from outside: `str(uuid.uuid4())`
and `today()`. -/
structure ExecEnv where
  newId : String
  todayStr : String
deriving DecidableEq

/-- `create_task` of `tempCodeRunnerFile.py` (the task factory). -/
def create_task (env : ExecEnv) (title : String) (task_type : String)
    (subject : Option String) (schedule : Option Schedule)
    (date : Option String) (days : Option (List String)) : TaskRec :=
  { id := env.newId, type_ := task_type, title := title, subject := subject,
    schedule := schedule, date := date, days := days, status := "pending",
    subtasks := [], documents := [], created_at := env.todayStr,
    updated_at := env.todayStr }

/-- Result of `add_task_logic`: the returned value (`None` on rejection),
the resulting state, and whether `save_data` wrote it to disk. -/
structure AddResult where
  result : Option TaskRec
  data : Data
  saved : Bool
deriving DecidableEq

/-- Python truthiness test `not title or not title.strip()` for the
optional title argument. -/
def blankTitle (title : Option String) : Bool :=
  match title with
  | none => true
  | some s => s.data.isEmpty || (stripL s.data).isEmpty

/-- `add_task_logic` of `tempCodeRunnerFile.py`: reject a missing/blank
title returning `None` without touching the state; otherwise append the
freshly created record and save. -/
def add_task_logic (env : ExecEnv) (data : Data) (title : Option String)
    (category : String) (deadline : Option String)
    (days : Option (List String)) (schedule : Option Schedule) : AddResult :=
  if blankTitle title then { result := none, data := data, saved := false }
  else
    let new_task :=
      create_task env (pyStrip (title.getD "")) category none schedule deadline days
    { result := some new_task,
      data := { tasks := data.tasks ++ [new_task] }, saved := true }

/-- `ActionExecutionLayer._execute_class`: read the candidate's fields with
defaults (`"New Class"`, `[]`, `"00:00"`), hand them to `add_task_logic`
unvalidated, and report a success message built from those fields (the
best-effort ACE collaborator calls `record_query` / `learn_schedule_patterns`
have no effect on this state and are not modelled).  Returns the message
together with the resulting state and save flag. -/
def execute_class (env : ExecEnv) (c : IntentCandidate) (data : Data) :
    String × AddResult :=
  let fields := c.extracted_fields
  let title := fields.title.getD "New Class"
  let days := fields.days.getD []
  let start := fields.start.getD "00:00"
  let end_ := fields.end_.getD "00:00"
  let schedule : Schedule := { days := days, start := start, end_ := end_ }
  let r := add_task_logic env data (some title) "class" none (some days) (some schedule)
  ("✅ Added class: **" ++ title ++ "** (" ++ joinWith ", " days ++ " " ++
      start ++ "-" ++ end_ ++ ")", r)

/-! ## `RoutineNormalizer._format_time` (`ai_parser.py`) -/

/-- `RoutineNormalizer._format_time`: lower/strip, turn dots into colons,
note am/pm, keep only digits and colons, default the minutes, parse
`h:m`, apply am/pm arithmetic and re-render zero-padded; on a parse
failure return the cleaned string as-is. -/
def format_time (t_str : String) : String :=
  let t1 := String.mk ((stripL (pyLower t_str).data).map
    (fun c => if c = '.' then ':' else c))
  let is_pm := pyContains t1 "pm"
  let is_am := pyContains t1 "am"
  let cleaned := String.mk (t1.data.filter (fun c => c.isDigit || c = ':'))
  let cleaned := if pyContains cleaned ":" then cleaned else cleaned ++ ":00"
  match splitOnChar ':' cleaned.data with
  | [hs, ms] =>
    if hs.isEmpty || ms.isEmpty then cleaned
    else
      let h := digitsToNat hs
      let m := digitsToNat ms
      let h := if is_pm && h < 12 then h + 12 else h
      let h := if is_am && h = 12 then 0 else h
      padTwo h ++ ":" ++ padTwo m
  | _ => cleaned

/-! ## Named values used by the theorems below -/

/-- The QUERY candidate `detect` produces for question-shaped text. -/
def queryCandidate (text : String) : IntentCandidate :=
  { intent_type := .QUERY, confidence := 100,
    extracted_fields := { action := some (map_query_to_action (pyStrip (pyLower text))) },
    source := "regex", reason := "Text matches question pattern",
    needs_clarification := false }

/-- The low-confidence TASK fallback candidate of `detect`. -/
def fallbackTaskCandidate (title : String) : IntentCandidate :=
  { intent_type := .TASK, confidence := 60,
    extracted_fields := { title := some title }, source := "heuristic",
    reason := "No query or class patterns detected", needs_clarification := false }

/-- The secondary CHAT fallback candidate of `detect`. -/
def fallbackChatCandidate : IntentCandidate :=
  { intent_type := .CHAT, confidence := 40, extracted_fields := {},
    source := "heuristic", reason := "Could be casual conversation",
    needs_clarification := false }

/-- The CLASS candidate `detect` produces for "class"/"lecture" text without
schedule details. -/
def classKeywordCandidate : IntentCandidate :=
  { intent_type := .CLASS, confidence := 50, extracted_fields := {},
    source := "heuristic",
    reason := "Contains 'class' keyword but missing schedule details",
    needs_clarification := true,
    clarification_question := "What days and time is this class?",
    options := ["Mon Wed 10-11", "Tue Thu 14-16", "Daily 9-10"] }

/-- The contextual TASK clarification question of `_generate_clarification`. -/
def taskClarifyQuestion : String :=
  "Would you like me to add this as a task, or was that just a note?"

/-- The canned reply options accompanying `taskClarifyQuestion`. -/
def taskClarifyOptions : List String := ["Add as task", "Just a note", "Help me phrase it"]

/-- The contextual CLASS clarification question of `_generate_clarification`. -/
def classClarifyQuestion : String :=
  "It looks like you're mentioning a class. Should I add it to your schedule?"

/-- The canned reply options accompanying `classClarifyQuestion`. -/
def classClarifyOptions : List String := ["Add to schedule", "Just info", "Ask for details"]

/-- A concrete collaborator-message environment for closed statements. -/
def sampleEnv : QueryEnv :=
  { xpMessage := "xp summary", nextClassMessage := "next class",
    todayMessage := "today schedule", weeklyMessage := "weekly classes",
    statsMessage := "stats" }

/-- A concrete execution environment (uuid/today) for closed statements. -/
def sampleExecEnv : ExecEnv := { newId := "id-1", todayStr := "2026-10-12" }

/-- The deterministic CLASS candidate `detect` produces for
`"Physics class Mon Wed 10-11"`: confidence 0.7, structural fields only
(days/start/end, no title). -/
def physClassCandidate : IntentCandidate :=
  { intent_type := .CLASS, confidence := 70,
    extracted_fields :=
      { days := some ["mon", "wed"], start := some "10:00", end_ := some "11:00" },
    source := "heuristic", reason := "Contains both days and time patterns",
    needs_clarification := false }

/-- The pending entry `process` stores for `"Physics class Mon Wed 10-11"`
in deterministic-only operation. -/
def physPending : PendingIntent :=
  { original_text := "Physics class Mon Wed 10-11",
    candidates := [physClassCandidate],
    clarification_asked := classClarifyQuestion, options := classClarifyOptions }

/-- A representative advisory CLASS suggestion for the same input (what
`AIIntentSuggestionLayer.suggest` would return on a confident parse). -/
def physAISuggestion : IntentCandidate :=
  { intent_type := .CLASS, confidence := 90,
    extracted_fields :=
      { title := some "Physics", days := some ["mon", "wed"],
        start := some "10:00", end_ := some "11:00" },
    source := "ai", reason := "Clear class command",
    needs_clarification := false }

/-- The pending entry `process` stores for the ambiguous task-like input
`"buy milk"`. -/
def milkPending : PendingIntent :=
  { original_text := "buy milk",
    candidates := [fallbackTaskCandidate "buy milk", fallbackChatCandidate],
    clarification_asked := taskClarifyQuestion, options := taskClarifyOptions }

/-- The pending entry `process` stores when `"no cancel"` is treated as
fresh input. -/
def noCancelPending : PendingIntent :=
  { original_text := "no cancel",
    candidates := [fallbackTaskCandidate "no cancel", fallbackChatCandidate],
    clarification_asked := taskClarifyQuestion, options := taskClarifyOptions }

/-- An advisory TASK suggestion at confidence 0.80 for `"hello there"`. -/
def helloAISuggestion : IntentCandidate :=
  { intent_type := .TASK, confidence := 80,
    extracted_fields := { title := some "hello there" },
    source := "ai", reason := "task guess", needs_clarification := false }

/-- A CLASS candidate whose `title` key is present but empty. -/
def emptyTitleClassCandidate : IntentCandidate :=
  { intent_type := .CLASS, confidence := 90,
    extracted_fields := { title := some "" }, source := "ai",
    reason := "", needs_clarification := false }

/-! ## Helper lemmas -/

/-- On question-shaped text, detection returns the single QUERY candidate. -/
lemma detect_of_question {text : String}
    (h : is_question (pyStrip (pyLower text)) = true) :
    detect text = [queryCandidate text] := by
  simp only [detect, h, if_true, queryCandidate]

/-- A candidate whose confidence respects the spec's [0,1] range scores at
most 1.2 (the two boosts are mutually exclusive). -/
lemma candidate_score_le_120 {c : IntentCandidate} (h : c.confidence ≤ 100) :
    candidate_score c ≤ 120 := by
  unfold candidate_score
  by_cases h1 : c.intent_type = .QUERY ∧ (c.source = "regex" ∨ c.source = "heuristic")
  · rw [if_pos h1]
    by_cases h2 : c.source = "ai" ∧ (c.intent_type = .TASK ∨ c.intent_type = .CLASS)
    · exfalso
      rcases h2 with ⟨_, h2 | h2⟩ <;> rw [h1.1] at h2 <;> exact absurd h2 (by decide)
    · rw [if_neg h2]; omega
  · rw [if_neg h1]
    by_cases h2 : c.source = "ai" ∧ (c.intent_type = .TASK ∨ c.intent_type = .CLASS)
    · rw [if_pos h2]; omega
    · rw [if_neg h2]; omega

/-- The deterministic QUERY candidate scores exactly 1.2. -/
lemma score_queryCandidate (text : String) :
    candidate_score (queryCandidate text) = 120 := rfl

/-- The deterministic QUERY candidate wins selection against any advisory
suggestion whose confidence is at most 1 (Python `max` keeps the first of
equally-scored elements). -/
lemma select_best_of_question (text : String) (ai : Option IntentCandidate)
    (hai : ∀ a ∈ ai, a.confidence ≤ 100) :
    select_best_candidate (queryCandidate text :: ai.toList) = queryCandidate text := by
  cases ai with
  | none => rfl
  | some a =>
    have h120 : candidate_score a ≤ 120 := candidate_score_le_120 (hai a rfl)
    show (if candidate_score (queryCandidate text) < candidate_score a then a
          else queryCandidate text) = queryCandidate text
    rw [score_queryCandidate, if_neg (by omega)]

/-- Fresh processing of question-shaped text dispatches to query handling
and leaves the pending table unchanged, for any advisory input within the
spec's confidence range. -/
lemma processFresh_of_question (text sid : String) (ai : Option IntentCandidate)
    (env : QueryEnv) (table : PendingTable)
    (hq : is_question (pyStrip (pyLower text)) = true)
    (hai : ∀ a ∈ ai, a.confidence ≤ 100) :
    processFresh text sid ai env table = (handle_query (queryCandidate text) env, table) := by
  unfold processFresh resolver_best resolver_candidates
  rw [detect_of_question hq]
  simp only [List.singleton_append, select_best_of_question text ai hai]
  rfl

/-- Every branch of `_handle_query` produces a Respond outcome. -/
lemma handle_query_respond (c : IntentCandidate) (env : QueryEnv) :
    ∃ m, handle_query c env = .respond m := by
  simp only [handle_query]
  repeat' split
  all_goals exact ⟨_, rfl⟩

/-- `process` on question-shaped text that is not taken as a clarification
reply: the outcome is query handling, and the table at most loses the
session's stale entry.  Independent of the advisory input (given the spec's
confidence range). -/
lemma process_of_question (text sid : String) (ai : Option IntentCandidate)
    (env : QueryEnv) (table : PendingTable)
    (hq : is_question (pyStrip (pyLower text)) = true)
    (hpend : ∀ p, lookupP table sid = some p →
      is_clarification_response text p.options = false)
    (hai : ∀ a ∈ ai, a.confidence ≤ 100) :
    process text sid ai env table =
      (handle_query (queryCandidate text) env,
        match lookupP table sid with
        | some _ => eraseP table sid
        | none => table) := by
  unfold process
  cases h : lookupP table sid with
  | none => exact processFresh_of_question text sid ai env table hq hai
  | some p =>
    have hc := hpend p h
    simp only [hc, Bool.false_eq_true, if_false]
    exact processFresh_of_question text sid ai env _ hq hai

/-- In the clarification band the validated outcome is decided by
`_generate_clarification`: a question from it is returned and persisted,
otherwise the call degrades to `_handle_low_confidence` without persisting. -/
lemma processFresh_clarify_band (text sid : String) (ai : Option IntentCandidate)
    (env : QueryEnv) (table : PendingTable)
    (hvalid : validate_candidate (resolver_best text ai) = .valid)
    (h85 : (resolver_best text ai).confidence < 85)
    (h60 : 60 ≤ (resolver_best text ai).confidence) :
    processFresh text sid ai env table =
      match generate_clarification (resolver_best text ai) with
      | some qo =>
        (.clarify qo.1 qo.2,
          insertP table sid
            { original_text := text, candidates := resolver_candidates text ai,
              clarification_asked := qo.1, options := qo.2 })
      | none => (handle_low_confidence (resolver_best text ai), table) := by
  simp only [processFresh, AUTO_EXECUTE_THRESHOLD, CLARIFY_THRESHOLD]
  rw [hvalid]
  rw [if_neg (Nat.not_le.mpr h85), if_pos h60]

/-! ## Claim C1 -/

/-- C1 (corrected, counterexample): a question-shaped text can reach the
Action Executor through the pending-clarification path.  Processing the
ambiguous input "buy milk" stores a PendingResolution whose options contain
the keyword "add"; the follow-up question "what should i add?" (which
matches the question-starter pattern) is then taken as an affirmative
clarification reply and resolved into an Execute outcome carrying the
stored TASK candidate. -/
theorem question_reaches_executor_via_pending :
    process "buy milk" "default" none sampleEnv []
      = (.clarify taskClarifyQuestion taskClarifyOptions, [("default", milkPending)])
    ∧ is_question (pyStrip (pyLower "what should i add?")) = true
    ∧ process "what should i add?" "default" none sampleEnv [("default", milkPending)]
      = (.execute (fallbackTaskCandidate "buy milk") true
          (some "what should i add?"), []) := by
  decide

/-- C1 (corrected, amended): for every input text matching a
question-starter pattern, every session, every pending table whose entry
for the session (if any) does not capture the text as a clarification
reply, and every advisory suggestion within the spec's confidence range,
`process` returns a Respond outcome (so no Execute ever happens). -/
theorem question_never_executes (text sid : String) (ai : Option IntentCandidate)
    (env : QueryEnv) (table : PendingTable)
    (hq : is_question (pyStrip (pyLower text)) = true)
    (hpend : ∀ p, lookupP table sid = some p →
      is_clarification_response text p.options = false)
    (hai : ∀ a ∈ ai, a.confidence ≤ 100) :
    ∃ m, (process text sid ai env table).1 = Outcome.respond m := by
  rw [process_of_question text sid ai env table hq hpend hai]
  exact handle_query_respond (queryCandidate text) env

/-- Witness for C1's amended theorem at the concrete question
"what time is it?" in an empty session table. -/
theorem question_never_executes_witness :
    ∃ m, (process "what time is it?" "default" none sampleEnv []).1 = Outcome.respond m :=
  question_never_executes "what time is it?" "default" none sampleEnv []
    (by decide) (fun p hp => by simp [lookupP] at hp) (fun a ha => by simp at ha)

/-! ## Claim C2 -/

/-- C2 (corrected, counterexample): with the advisory suggester absent, the
input "Physics class Mon Wed 10-11" does NOT produce an Execute outcome:
the deterministic CLASS candidate has confidence 0.7, which falls in the
clarification band, so `process` returns Clarify (asking whether to add the
class) and stores a pending entry whose candidate carries only the
structural fields days=["mon","wed"], start="10:00", end="11:00" - no
title "Physics". -/
theorem scenarioB_deterministic_clarifies :
    process "Physics class Mon Wed 10-11" "default" none sampleEnv []
      = (.clarify classClarifyQuestion classClarifyOptions, [("default", physPending)]) := by
  decide

/-- C2 (corrected, amended): for "Physics class Mon Wed 10-11", with no
pending state, the advisory-suggester-absent run returns Clarify and stores
the structural candidate (second conjunct), never Execute; and whenever the
advisory layer supplies a valid TASK or CLASS suggestion with confidence at
least 0.85 (in particular, but not only, a CLASS suggestion carrying the
claimed fields), that suggestion outscores the deterministic 0.7 CLASS
candidate and is executed with its own extracted fields and
`requires_user_confirmation = (confidence < 0.95)` (first conjunct). -/
theorem scenarioB_class_details (sid : String) (env : QueryEnv)
    (table : PendingTable) (c : IntentCandidate)
    (hpend : lookupP table sid = none)
    (hsrc : c.source = "ai")
    (hkind : c.intent_type = .TASK ∨ c.intent_type = .CLASS)
    (h85 : 85 ≤ c.confidence)
    (hvalid : validate_candidate c = .valid) :
    process "Physics class Mon Wed 10-11" sid (some c) env table
      = (.execute c (decide (c.confidence < 95)) none, table)
    ∧ process "Physics class Mon Wed 10-11" "default" none sampleEnv []
      = (.clarify classClarifyQuestion classClarifyOptions, [("default", physPending)]) := by
  constructor
  · have hdet : detect "Physics class Mon Wed 10-11" = [physClassCandidate] := by decide
    have hsc : candidate_score c = c.confidence + 5 := by
      unfold candidate_score
      rw [if_neg (fun hq => by
          rcases hkind with hk | hk <;> rw [hk] at hq <;> exact absurd hq.1 (by decide)),
        if_pos ⟨hsrc, hkind⟩]
    have hbest : resolver_best "Physics class Mon Wed 10-11" (some c) = c := by
      unfold resolver_best resolver_candidates
      rw [hdet]
      show (if candidate_score physClassCandidate < candidate_score c then c
            else physClassCandidate) = c
      rw [hsc, if_pos (by have : candidate_score physClassCandidate = 70 := rfl; omega)]
    unfold process; rw [hpend]
    simp only [processFresh, AUTO_EXECUTE_THRESHOLD, CLARIFY_THRESHOLD]
    rw [hbest, hvalid, if_pos h85,
      if_neg (fun hq => by
        rcases hkind with hk | hk <;> rw [hk] at hq <;> exact absurd hq (by decide)),
      if_pos hkind]
  · decide

/-- Witness for C2's amended theorem with the representative advisory CLASS
suggestion at confidence 0.9. -/
theorem scenarioB_class_details_witness :
    process "Physics class Mon Wed 10-11" "default" (some physAISuggestion) sampleEnv []
      = (.execute physAISuggestion (decide (physAISuggestion.confidence < 95)) none, [])
    ∧ process "Physics class Mon Wed 10-11" "default" none sampleEnv []
      = (.clarify classClarifyQuestion classClarifyOptions, [("default", physPending)]) :=
  scenarioB_class_details "default" sampleEnv [] physAISuggestion
    (by decide) (by decide) (by decide) (by decide) (by decide)

/-! ## Claim C3 -/

/-- C3 (corrected, counterexample): a winning TASK candidate that passes
validation with raw confidence 0.80 (inside the claimed band 0.60-0.85) is
answered with the generic low-confidence Clarify and NO PendingResolution
is persisted: the resulting table is still empty. -/
theorem upper_clarify_band_not_persisted :
    resolver_best "hello there" (some helloAISuggestion) = helloAISuggestion
    ∧ validate_candidate helloAISuggestion = .valid
    ∧ process "hello there" "default" (some helloAISuggestion) sampleEnv []
      = (.clarify "I'm not quite sure what you want. Could you rephrase?"
          ["Add as task", "Add as class", "Just tell me"], []) := by
  decide

/-- C3 (corrected, amended): for a winning TASK/CLASS candidate that passes
the hard rules with raw confidence in [0.60, 0.85), `process` persists a
PendingResolution (with the full candidate list, question and options)
exactly when the candidate asks its own clarification or its confidence is
below 0.75; for confidences in [0.75, 0.85) without a candidate-provided
question it returns the generic Clarify and persists nothing. -/
theorem clarify_band_behavior (text sid : String) (ai : Option IntentCandidate)
    (env : QueryEnv) (table : PendingTable)
    (hpend : lookupP table sid = none)
    (hkind : (resolver_best text ai).intent_type = .TASK ∨
      (resolver_best text ai).intent_type = .CLASS)
    (hvalid : validate_candidate (resolver_best text ai) = .valid)
    (h60 : 60 ≤ (resolver_best text ai).confidence)
    (h85 : (resolver_best text ai).confidence < 85) :
    ((resolver_best text ai).needs_clarification = true ∨
        (resolver_best text ai).confidence < 75 →
      ∃ q opts, process text sid ai env table =
        (.clarify q opts,
          insertP table sid
            { original_text := text, candidates := resolver_candidates text ai,
              clarification_asked := q, options := opts }))
    ∧ ((resolver_best text ai).needs_clarification = false →
        75 ≤ (resolver_best text ai).confidence →
      process text sid ai env table =
        (.clarify "I'm not quite sure what you want. Could you rephrase?"
          ["Add as task", "Add as class", "Just tell me"], table)) := by
  have hproc : process text sid ai env table = processFresh text sid ai env table := by
    unfold process; rw [hpend]
  have hband := processFresh_clarify_band text sid ai env table hvalid h85 h60
  constructor
  · intro hgen
    cases hne : (resolver_best text ai).needs_clarification with
    | true =>
      have hgeq : generate_clarification (resolver_best text ai) =
          some ((resolver_best text ai).clarification_question,
            (resolver_best text ai).options) := by
        unfold generate_clarification; rw [hne]; rfl
      refine ⟨(resolver_best text ai).clarification_question,
        (resolver_best text ai).options, ?_⟩
      rw [hproc, hband, hgeq]
    | false =>
      have h75 : (resolver_best text ai).confidence < 75 := by
        rcases hgen with hg | hg
        · rw [hne] at hg; exact absurd hg (by decide)
        · exact hg
      rcases hkind with hk | hk
      · have hgeq : generate_clarification (resolver_best text ai) =
            some (taskClarifyQuestion, taskClarifyOptions) := by
          unfold generate_clarification
          rw [hne, if_neg (by decide), if_pos h75, hk]
          rfl
        refine ⟨taskClarifyQuestion, taskClarifyOptions, ?_⟩
        rw [hproc, hband, hgeq]
      · have hgeq : generate_clarification (resolver_best text ai) =
            some (classClarifyQuestion, classClarifyOptions) := by
          unfold generate_clarification
          rw [hne, if_neg (by decide), if_pos h75, hk]
          rfl
        refine ⟨classClarifyQuestion, classClarifyOptions, ?_⟩
        rw [hproc, hband, hgeq]
  · intro hne h75
    have hgeq : generate_clarification (resolver_best text ai) = none := by
      unfold generate_clarification
      rw [hne, if_neg (by decide), if_neg (Nat.not_lt.mpr h75)]
    have hlow : handle_low_confidence (resolver_best text ai) =
        .clarify "I'm not quite sure what you want. Could you rephrase?"
          ["Add as task", "Add as class", "Just tell me"] := by
      unfold handle_low_confidence
      rw [if_neg (by rcases hkind with hk | hk <;> rw [hk] <;> decide)]
    rw [hproc, hband, hgeq, hlow]

/-- Witness for C3's amended theorem at the ambiguous task-like input
"buy milk" with no advisory input. -/
theorem clarify_band_behavior_witness :
    ((resolver_best "buy milk" none).needs_clarification = true ∨
        (resolver_best "buy milk" none).confidence < 75 →
      ∃ q opts, process "buy milk" "default" none sampleEnv [] =
        (.clarify q opts,
          insertP [] "default"
            { original_text := "buy milk",
              candidates := resolver_candidates "buy milk" none,
              clarification_asked := q, options := opts }))
    ∧ ((resolver_best "buy milk" none).needs_clarification = false →
        75 ≤ (resolver_best "buy milk" none).confidence →
      process "buy milk" "default" none sampleEnv [] =
        (.clarify "I'm not quite sure what you want. Could you rephrase?"
          ["Add as task", "Add as class", "Just tell me"], [])) :=
  clarify_band_behavior "buy milk" "default" none sampleEnv []
    (by decide) (by decide) (by decide) (by decide) (by decide)

/-! ## Claim C4 -/

/-- C4 (corrected, counterexample): for the clearly deterministic
class-with-details input "Physics class Mon Wed 10-11", suggester absence
DOES change the outcome tag: the deterministic-only run returns Clarify
while a run with a confident advisory CLASS suggestion returns Execute. -/
theorem suggester_absence_changes_class_outcome :
    (process "Physics class Mon Wed 10-11" "default" none sampleEnv []).1
      = .clarify classClarifyQuestion classClarifyOptions
    ∧ (process "Physics class Mon Wed 10-11" "default" (some physAISuggestion)
        sampleEnv []).1
      = .execute physAISuggestion true none := by
  decide

/-- C4 (corrected, amended): the two-run noninterference holds for the
question-shaped inputs: for every such text (not captured as a pending
clarification reply) and every advisory suggestion within the spec's
confidence range, the full result of `process` - outcome and table - is
identical with and without the suggestion. -/
theorem suggester_noninterference_on_questions (text sid : String)
    (a : IntentCandidate) (env : QueryEnv) (table : PendingTable)
    (hq : is_question (pyStrip (pyLower text)) = true)
    (hpend : ∀ p, lookupP table sid = some p →
      is_clarification_response text p.options = false)
    (ha : a.confidence ≤ 100) :
    process text sid (some a) env table = process text sid none env table := by
  rw [process_of_question text sid (some a) env table hq hpend
      (fun x hx => by rw [Option.mem_def, Option.some.injEq] at hx; rw [← hx]; exact ha),
    process_of_question text sid none env table hq hpend (fun x hx => by simp at hx)]

/-- Witness for C4's amended theorem at the question "what time is it?"
against the representative advisory suggestion. -/
theorem suggester_noninterference_on_questions_witness :
    process "what time is it?" "default" (some physAISuggestion) sampleEnv []
      = process "what time is it?" "default" none sampleEnv [] :=
  suggester_noninterference_on_questions "what time is it?" "default" physAISuggestion
    sampleEnv [] (by decide) (fun p hp => by simp [lookupP] at hp) (by decide)

/-! ## Claim C5 -/

/-- C5 (corrected, counterexample): after "Physics class Mon Wed 10-11" is
answered with Clarify and its PendingResolution (options "Add to schedule"
/ "Just info" / "Ask for details") is stored, the follow-up "no cancel"
does NOT resolve to Respond: none of the stored options' keywords occurs in
it, so the stale entry is discarded, the reply is reprocessed as fresh
input, and `process` returns a new task clarification and stores a NEW
pending entry. -/
theorem pending_resolution_fresh_reprocessing :
    process "Physics class Mon Wed 10-11" "default" none sampleEnv []
      = (.clarify classClarifyQuestion classClarifyOptions, [("default", physPending)])
    ∧ process "no cancel" "default" none sampleEnv [("default", physPending)]
      = (.clarify taskClarifyQuestion taskClarifyOptions, [("default", noCancelPending)]) := by
  decide

/-- C5 (corrected, amended): the claimed round-trip behavior holds for a
stored PendingResolution whose options are the task-clarification options
(whose keywords the replies match) and whose candidate set contains a
TASK/CLASS candidate `b` of maximal confidence: "yes add it" resolves to
`Execute b` with `requires_user_confirmation = true`, "no cancel" resolves
to Respond, and the pending entry is deleted from the table in both cases. -/
theorem pending_resolution_task_options (sid : String) (env1 env2 : QueryEnv)
    (table : PendingTable) (p : PendingIntent) (b : IntentCandidate)
    (ai1 ai2 : Option IntentCandidate)
    (hpend : lookupP table sid = some p)
    (hopts : p.options = taskClarifyOptions)
    (hbest : bestTaskClass p.candidates = some b) :
    process "yes add it" sid ai1 env1 table
      = (.execute b true (some "yes add it"), eraseP table sid)
    ∧ process "no cancel" sid ai2 env2 table
      = (.respond "Got it! I'll leave your data as is. Is there anything else I can help with?",
          eraseP table sid) := by
  constructor
  · unfold process
    rw [hpend]
    simp only
    rw [show is_clarification_response "yes add it" p.options = true by
      rw [hopts]; decide]
    simp only [if_true]
    simp only [resolve_pending_intent]
    rw [show (AFFIRM_WORDS.any fun kw => pyContains (pyLower "yes add it") kw) = true from by decide]
    simp only [if_true]
    rw [hbest]
  · unfold process
    rw [hpend]
    simp only
    rw [show is_clarification_response "no cancel" p.options = true by
      rw [hopts]; decide]
    simp only [if_true]
    simp only [resolve_pending_intent]
    rw [show (AFFIRM_WORDS.any fun kw => pyContains (pyLower "no cancel") kw) = false from by decide]
    simp only [Bool.false_eq_true, if_false]
    rw [show (NEGATIVE_WORDS.any fun kw => pyContains (pyLower "no cancel") kw) = true from by decide]
    simp only [if_true]

/-- Witness for C5's amended theorem at the stored "buy milk" pending entry. -/
theorem pending_resolution_task_options_witness :
    process "yes add it" "default" none sampleEnv [("default", milkPending)]
      = (.execute (fallbackTaskCandidate "buy milk") true (some "yes add it"),
          eraseP [("default", milkPending)] "default")
    ∧ process "no cancel" "default" none sampleEnv [("default", milkPending)]
      = (.respond "Got it! I'll leave your data as is. Is there anything else I can help with?",
          eraseP [("default", milkPending)] "default") :=
  pending_resolution_task_options "default" sampleEnv sampleEnv
    [("default", milkPending)] milkPending (fallbackTaskCandidate "buy milk")
    none none (by decide) (by decide) (by decide)

/-! ## Claim C6 -/

/-- C6 (corrected, counterexample): the input "meet monday" contains a
day-name token, no time range, and is not a question, yet `detect` returns
the TASK/CHAT fallback pair - no CLASS candidate with confidence 0.5 at
all. -/
theorem day_token_without_class_keyword_falls_to_task :
    hasDayToken (pyStrip (pyLower "meet monday")) = true
    ∧ searchTime (pyStrip (pyLower "meet monday")).data = none
    ∧ is_question (pyStrip (pyLower "meet monday")) = false
    ∧ detect "meet monday"
      = [fallbackTaskCandidate "meet monday", fallbackChatCandidate] := by
  decide

/-- C6 (corrected, amended): the clarification-seeking CLASS candidate
(confidence 0.5, `needs_clarification = true`, the fixed question and the
three example-reply options) is produced exactly for non-question inputs
that do not carry both a day token and a time range but do contain the
substring "class" or "lecture"; a day token alone does not trigger it. -/
theorem day_without_time_needs_class_keyword (text : String)
    (hq : is_question (pyStrip (pyLower text)) = false)
    (hnc : (hasDayToken (pyStrip (pyLower text)) &&
      (searchTime (pyStrip (pyLower text)).data).isSome) = false)
    (hkw : (pyContains (pyStrip (pyLower text)) "class" ||
      pyContains (pyStrip (pyLower text)) "lecture") = true) :
    detect text = [classKeywordCandidate] := by
  simp only [detect, hq, Bool.false_eq_true, if_false, hnc, hkw, if_true,
    classKeywordCandidate]

/-- Witness for C6's amended theorem at the bare input "class". -/
theorem day_without_time_needs_class_keyword_witness :
    detect "class" = [classKeywordCandidate] :=
  day_without_time_needs_class_keyword "class" (by decide) (by decide) (by decide)

/-! ## Claim C7 -/

/-- C7 (corrected, counterexample): a CLASS candidate whose `title` key is
present but empty is NOT appended: `add_task_logic` rejects the blank
title, the state and disk are untouched (while the Executor still returns
its success message). -/
theorem executor_skips_blank_title_class :
    emptyTitleClassCandidate.intent_type = .CLASS
    ∧ (execute_class sampleExecEnv emptyTitleClassCandidate ⟨[]⟩).2
      = { result := none, data := ⟨[]⟩, saved := false } := by
  decide

/-- C7 (corrected, amended): for every CLASS candidate whose title field -
after defaulting a missing title to "New Class" - is not blank, a class
record is appended and saved with no schema validation of the written
fields: missing start/end default to "00:00" and the days list defaults to
empty, whatever the candidate carried. -/
theorem executor_appends_unvalidated_class (env : ExecEnv) (c : IntentCandidate)
    (data : Data)
    (hkind : c.intent_type = .CLASS)
    (htitle : blankTitle (some (c.extracted_fields.title.getD "New Class")) = false) :
    (execute_class env c data).2 =
      { result := some (create_task env
          (pyStrip (c.extracted_fields.title.getD "New Class")) "class" none
          (some { days := c.extracted_fields.days.getD [],
                  start := c.extracted_fields.start.getD "00:00",
                  end_ := c.extracted_fields.end_.getD "00:00" })
          none (some (c.extracted_fields.days.getD []))),
        data := { tasks := data.tasks ++ [create_task env
          (pyStrip (c.extracted_fields.title.getD "New Class")) "class" none
          (some { days := c.extracted_fields.days.getD [],
                  start := c.extracted_fields.start.getD "00:00",
                  end_ := c.extracted_fields.end_.getD "00:00" })
          none (some (c.extracted_fields.days.getD []))] },
        saved := true } := by
  simp only [execute_class, add_task_logic, htitle, Bool.false_eq_true, if_false,
    Option.getD_some]

/-- Witness for C7's amended theorem: a CLASS candidate with no extracted
fields at all is appended with all defaults. -/
theorem executor_appends_unvalidated_class_witness :
    (execute_class sampleExecEnv
        { intent_type := .CLASS, confidence := 90 } ⟨[]⟩).2 =
      { result := some (create_task sampleExecEnv
          (pyStrip (({} : Fields).title.getD "New Class")) "class" none
          (some { days := ({} : Fields).days.getD [],
                  start := ({} : Fields).start.getD "00:00",
                  end_ := ({} : Fields).end_.getD "00:00" })
          none (some (({} : Fields).days.getD []))),
        data := { tasks := ([] : List TaskRec) ++ [create_task sampleExecEnv
          (pyStrip (({} : Fields).title.getD "New Class")) "class" none
          (some { days := ({} : Fields).days.getD [],
                  start := ({} : Fields).start.getD "00:00",
                  end_ := ({} : Fields).end_.getD "00:00" })
          none (some (({} : Fields).days.getD []))] },
        saved := true } :=
  executor_appends_unvalidated_class sampleExecEnv
    { intent_type := .CLASS, confidence := 90 } ⟨[]⟩ (by decide) (by decide)

/-! ## Claim C8 -/

/-- C8 (confirmed): `detect` never returns an empty candidate sequence -
questions yield a QUERY candidate, day+time inputs a CLASS candidate,
"class"/"lecture" inputs a clarification-seeking CLASS candidate, and
everything else the TASK/CHAT fallback pair. -/
theorem detect_never_empty (text : String) : (detect text).isEmpty = false := by
  simp only [detect]
  split
  · rfl
  · split
    · rfl
    · split <;> rfl

/-! ## Claim C9 -/

set_option maxHeartbeats 1000000 in
/-- C9 (confirmed): time normalization is idempotent on already-normalized
zero-padded 24-hour `HH:MM` strings, both for `RoutineNormalizer._format_time`
and for the inline hour normalization of `_extract_structural_fields`. -/
theorem time_normalization_idempotent (h m : Nat) (hh : h < 24) (hm : m < 60) :
    format_time (padTwo h ++ ":" ++ padTwo m) = padTwo h ++ ":" ++ padTwo m
    ∧ padHourToken (padTwo h ++ ":" ++ padTwo m) = padTwo h ++ ":" ++ padTwo m := by
  revert hm
  revert m
  revert hh
  revert h
  show ∀ h, h < 24 → ∀ m, m < 60 → _ ∧ _
  decide

/-- Witness for C9 at the spec's example "09:00". -/
theorem time_normalization_idempotent_witness :
    format_time (padTwo 9 ++ ":" ++ padTwo 0) = padTwo 9 ++ ":" ++ padTwo 0
    ∧ padHourToken (padTwo 9 ++ ":" ++ padTwo 0) = padTwo 9 ++ ":" ++ padTwo 0 :=
  time_normalization_idempotent 9 0 (by decide) (by decide)

/-! ## Claim C10 -/

/-- C10 (confirmed): `add_task_logic` with a missing, empty or
whitespace-only title returns `None`, leaves the state unchanged and never
saves to disk. -/
theorem add_task_rejects_blank_title (env : ExecEnv) (data : Data)
    (title : Option String) (category : String) (deadline : Option String)
    (days : Option (List String)) (schedule : Option Schedule)
    (h : blankTitle title = true) :
    add_task_logic env data title category deadline days schedule =
      { result := none, data := data, saved := false } := by
  simp only [add_task_logic, h, if_true]

/-- Witness for C10 at a whitespace-only title. -/
theorem add_task_rejects_blank_title_witness :
    add_task_logic sampleExecEnv ⟨[]⟩ (some "   ") "task" none none none =
      { result := none, data := ⟨[]⟩, saved := false } :=
  add_task_rejects_blank_title sampleExecEnv ⟨[]⟩ (some "   ") "task" none none none
    (by decide)

end Focus
